import Mathlib

/-!
A verification development for the alert-detection and consolidation engine of
the ydata-profiling repository (files `ydata_profiling/model/alerts.py`,
`ydata_profiling/model/correlations.py`, `ydata_profiling/model/missing.py`,
`ydata_profiling/model/describe.py`).

The Python code is shallowly embedded:
* dictionaries with a fixed key set become structures; a key that may be
  absent (or hold NaN, which every comparison treats as False) becomes an
  `Option` field;
* floats that only ever take exact decimal values in the logic are embedded
  as rationals (`ℚ`);
* Python dicts used as insertion-ordered key/value stores become association
  lists, with `dictSet` modelling `d[k] = v` (overwrite in place, append for
  a fresh key);
* exceptions become explicit outcome values (`PyOutcome`, `Except`).
-/

namespace YProf

/-- The `AlertType` enum of `alerts.py` (18 members, declared in source
order, so `auto()` numbering matches constructor order). -/
inductive AlertType
  | CONSTANT
  | ZEROS
  | HIGH_CORRELATION
  | HIGH_CARDINALITY
  | UNSUPPORTED
  | DUPLICATES
  | SKEWED
  | IMBALANCE
  | MISSING
  | INFINITE
  | TYPE_DATE
  | UNIQUE
  | CONSTANT_LENGTH
  | REJECTED
  | UNIFORM
  | NON_STATIONARY
  | SEASONAL
  | EMPTY
  deriving DecidableEq

/-- The symbolic name of an `AlertType` member (Python `member.name`). -/
def AlertType.name : AlertType → String
  | .CONSTANT => "CONSTANT"
  | .ZEROS => "ZEROS"
  | .HIGH_CORRELATION => "HIGH_CORRELATION"
  | .HIGH_CARDINALITY => "HIGH_CARDINALITY"
  | .UNSUPPORTED => "UNSUPPORTED"
  | .DUPLICATES => "DUPLICATES"
  | .SKEWED => "SKEWED"
  | .IMBALANCE => "IMBALANCE"
  | .MISSING => "MISSING"
  | .INFINITE => "INFINITE"
  | .TYPE_DATE => "TYPE_DATE"
  | .UNIQUE => "UNIQUE"
  | .CONSTANT_LENGTH => "CONSTANT_LENGTH"
  | .REJECTED => "REJECTED"
  | .UNIFORM => "UNIFORM"
  | .NON_STATIONARY => "NON_STATIONARY"
  | .SEASONAL => "SEASONAL"
  | .EMPTY => "EMPTY"

/-- Python `str(member)` for an `AlertType` member, i.e. `"AlertType.NAME"`;
this is the sort key used by `get_alerts`. -/
def AlertType.pyStr (t : AlertType) : String := "AlertType." ++ t.name

/-- One column's summary dictionary, restricted to the keys the alert rules
read.  A key that may be absent, or present with value NaN (every comparison
against NaN is False in Python), is an `Option` field with `none` for
absent/NaN.  `has_composition` records whether the key `"composition"` is
present; `vtype` is the summary's `"type"` entry. -/
structure ColumnSummary where
  vtype : String
  n : Nat
  n_distinct : Option Nat
  p_missing : Option ℚ
  skewness : Option ℚ
  p_infinite : Option ℚ
  p_zeros : Option ℚ
  chi_squared_pvalue : Option ℚ
  stationary : Bool
  seasonal : Bool
  date_warning : Bool
  has_composition : Bool
  min_length : Nat
  max_length : Nat
  imbalance : Option ℚ
  deriving DecidableEq

/-- Table-wide statistics, restricted to the keys `check_table_alerts`
reads: `table["n"]` and `table.get("n_duplicates", np.nan)`. -/
structure TableStats where
  n : Nat
  n_duplicates : Option ℚ
  deriving DecidableEq

/-- The payload of an alert's `values` attribute: the empty dict `{}` (for
alerts constructed with `values=None`), a column summary, the table-stats
dict, or the `{"corr": ..., "fields": ...}` dict of a high-correlation
alert. -/
inductive AlertValues
  | empty
  | summary (s : ColumnSummary)
  | table (t : TableStats)
  | corrFields (corr : String) (fields : List String)
  deriving DecidableEq

/-- An `Alert` object, restricted to the attributes the engine logic reads
and writes: `alert_type`, `values` and `column_name` (the `fields` set and
`_is_empty` flag only feed rendering). -/
structure Alert where
  alert_type : AlertType
  values : AlertValues
  column_name : Option String
  deriving DecidableEq

/-- Per-correlation-method configuration: `{calculate,
warn_high_correlations, threshold}`. -/
structure CorrelationSettings where
  calculate : Bool
  warn_high_correlations : Bool
  threshold : ℚ
  deriving DecidableEq

/-- The configuration slice the alert engine reads.  `config.correlations`
is a dict from method name to `CorrelationSettings`; it is embedded as the
key list `correlation_names` (dict iteration order) together with a total
lookup function `correlations` (the engine only ever looks up keys that are
present, a missing key being a fatal configuration error). -/
structure Settings where
  skewness_threshold : Int
  num_chi_squared_threshold : ℚ
  cat_chi_squared_threshold : ℚ
  cardinality_threshold : Int
  cat_imbalance_threshold : ℚ
  bool_imbalance_threshold : ℚ
  correlation_names : List String
  correlations : String → CorrelationSettings

/-- The de-minimis cutoff `0.01` of `alerts.py`, written with `mkRat` so
that it evaluates in the kernel; `deMinimis_eq` checks it is the literal. -/
def deMinimis : ℚ := mkRat 1 100

/-- `alert_value(value)` of `alerts.py`: `not pd.isna(value) and value >
0.01`. -/
def alert_value (value : Option ℚ) : Bool :=
  match value with
  | none => false
  | some v => decide (deMinimis < v)

/-- `skewness_alert(v, threshold)` of `alerts.py`: `not pd.isna(v) and (v <
-1 * threshold or v > threshold)`. -/
def skewness_alert (v : Option ℚ) (threshold : Int) : Bool :=
  match v with
  | none => false
  | some x => decide (x < -1 * (threshold : ℚ)) || decide ((threshold : ℚ) < x)

/-- `check_table_alerts(table)` of `alerts.py`. -/
def check_table_alerts (table : TableStats) : List Alert :=
  (if alert_value table.n_duplicates
    then [⟨.DUPLICATES, .table table, none⟩] else [])
    ++ (if table.n == 0 then [⟨.EMPTY, .table table, none⟩] else [])

/-- `numeric_alerts(config, summary)` of `alerts.py`. -/
def numeric_alerts (config : Settings) (summary : ColumnSummary) : List Alert :=
  (if skewness_alert summary.skewness config.skewness_threshold
    then [⟨.SKEWED, .summary summary, none⟩] else [])
    ++ (if alert_value summary.p_infinite
      then [⟨.INFINITE, .summary summary, none⟩] else [])
    ++ (if alert_value summary.p_zeros
      then [⟨.ZEROS, .summary summary, none⟩] else [])
    ++ (match summary.chi_squared_pvalue with
      | some p =>
        if config.num_chi_squared_threshold < p
          then [⟨.UNIFORM, .empty, none⟩] else []
      | none => [])

/-- `timeseries_alerts(config, summary)` of `alerts.py`. -/
def timeseries_alerts (config : Settings) (summary : ColumnSummary) : List Alert :=
  numeric_alerts config summary
    ++ (if summary.stationary then [] else [⟨.NON_STATIONARY, .empty, none⟩])
    ++ (if summary.seasonal then [⟨.SEASONAL, .empty, none⟩] else [])

/-- `categorical_alerts(config, summary)` of `alerts.py`.  Note that the
`CONSTANT_LENGTH` branch requires the `"composition"` key to be present and
that `summary.get("n_distinct", np.nan) > threshold` is False when the key
is absent. -/
def categorical_alerts (config : Settings) (summary : ColumnSummary) : List Alert :=
  (match summary.n_distinct with
    | some d =>
      if config.cardinality_threshold < (d : Int)
        then [⟨.HIGH_CARDINALITY, .summary summary, none⟩] else []
    | none => [])
    ++ (match summary.chi_squared_pvalue with
      | some p =>
        if config.cat_chi_squared_threshold < p
          then [⟨.UNIFORM, .empty, none⟩] else []
      | none => [])
    ++ (if summary.date_warning then [⟨.TYPE_DATE, .empty, none⟩] else [])
    ++ (if summary.has_composition && (summary.min_length == summary.max_length)
      then [⟨.CONSTANT_LENGTH, .empty, none⟩] else [])
    ++ (match summary.imbalance with
      | some v =>
        if config.cat_imbalance_threshold < v
          then [⟨.IMBALANCE, .summary summary, none⟩] else []
      | none => [])

/-- `boolean_alerts(config, summary)` of `alerts.py` (note: the
`ImbalanceAlert` here is constructed without values). -/
def boolean_alerts (config : Settings) (summary : ColumnSummary) : List Alert :=
  match summary.imbalance with
  | some v =>
    if config.bool_imbalance_threshold < v
      then [⟨.IMBALANCE, .empty, none⟩] else []
  | none => []

/-- `generic_alerts(summary)` of `alerts.py`. -/
def generic_alerts (summary : ColumnSummary) : List Alert :=
  if alert_value summary.p_missing then [⟨.MISSING, .empty, none⟩] else []

/-- `supported_alerts(summary)` of `alerts.py`.  `summary.get("n_distinct",
np.nan) == summary["n"]` is False when the key is absent. -/
def supported_alerts (summary : ColumnSummary) : List Alert :=
  (if summary.n_distinct == some summary.n
    then [⟨.UNIQUE, .empty, none⟩] else [])
    ++ (if summary.n_distinct == some 1
      then [⟨.CONSTANT, .summary summary, none⟩] else [])

/-- `unsupported_alerts(summary)` of `alerts.py` (both alerts fire
unconditionally). -/
def unsupported_alerts : List Alert :=
  [⟨.UNSUPPORTED, .empty, none⟩, ⟨.REJECTED, .empty, none⟩]

/-- `check_variable_alerts(config, col, description)` of `alerts.py`:
generic rules, then type-dispatched rules, then the back-fill loop that
overwrites every produced alert's `column_name` and `values`. -/
def check_variable_alerts (config : Settings) (col : String)
    (description : ColumnSummary) : List Alert :=
  let alerts : List Alert :=
    generic_alerts description
      ++ (if description.vtype == "Unsupported" then unsupported_alerts
        else supported_alerts description
          ++ (if description.vtype == "Categorical"
            then categorical_alerts config description else [])
          ++ (if description.vtype == "Numeric"
            then numeric_alerts config description else [])
          ++ (if description.vtype == "TimeSeries"
            then timeseries_alerts config description else [])
          ++ (if description.vtype == "Boolean"
            then boolean_alerts config description else []))
  alerts.map (fun a =>
    { a with column_name := some col, values := AlertValues.summary description })

/-- A correlation matrix as carried by a pandas DataFrame: the column
labels and the square array of values (row `i` is the row labelled
`cols[i]`). -/
structure CorrMatrix where
  cols : List String
  vals : List (List ℚ)
  deriving DecidableEq

/-- Entry `(i, j)` of the matrix (out-of-range reads return junk; all uses
are guarded by squareness in the theorems). -/
def matEntry (m : CorrMatrix) (i j : Nat) : ℚ :=
  (m.vals.getD i []).getD j 0

/-- The boolean mask `abs(matrix.values) >= threshold` with
`np.fill_diagonal(bool_index, False)` applied. -/
def boolIndex (m : CorrMatrix) (threshold : ℚ) (i j : Nat) : Bool :=
  if i = j then false else decide (threshold ≤ |matEntry m i j|)

/-- The row-`i` partner list `cols[bool_index[i]].values.tolist()`. -/
def rowPartners (m : CorrMatrix) (threshold : ℚ) (i : Nat) : List String :=
  ((List.range m.cols.length).filter (fun j => boolIndex m threshold i j)).map
    (fun j => m.cols.getD j "")

/-- `perform_check_correlation(correlation_matrix, threshold)` of
`correlations.py`: the dict comprehension over `enumerate(cols)` guarded by
`any(bool_index[i])`. -/
def perform_check_correlation (m : CorrMatrix) (threshold : ℚ) :
    List (String × List String) :=
  (List.range m.cols.length).filterMap (fun i =>
    if (List.range m.cols.length).any (fun j => boolIndex m threshold i j)
      then some (m.cols.getD i "", rowPartners m threshold i)
      else none)

/-- Python dict assignment `d[k] = v` on an insertion-ordered dict embedded
as an association list: overwrite in place when the key exists, append
otherwise. -/
def dictSet {α : Type} (d : List (String × α)) (k : String) (v : α) :
    List (String × α) :=
  if d.any (fun p => p.1 == k) then d.map (fun p => if p.1 == k then (k, v) else p)
  else d ++ [(k, v)]

/-- `check_correlation_alerts(config, correlations)` of `alerts.py`,
embedded statement by statement.  The source line
`set(fields).update(set(correlated_mapping.get(col, [])))` builds a
temporary set and discards it, so it contributes nothing; the loop body
reduces to the dict assignment `correlations_consolidated[col] = fields`. -/
def check_correlation_alerts (config : Settings)
    (correlations : List (String × CorrMatrix)) : List Alert :=
  let consolidated : List (String × List String) :=
    correlations.foldl
      (fun acc p =>
        if (config.correlations p.1).warn_high_correlations then
          (perform_check_correlation p.2 (config.correlations p.1).threshold).foldl
            (fun acc2 cf => dictSet acc2 cf.1 cf.2) acc
        else acc)
      []
  consolidated.map (fun cf =>
    ⟨.HIGH_CORRELATION, .corrFields "overall" cf.2, some cf.1⟩)

/-- The kind of a Python exception, as far as the handlers here
distinguish them. -/
inductive ErrKind
  | valueError
  | assertionError
  | typeError
  | dataError
  | indexError
  | other
  deriving DecidableEq

/-- The error kinds caught by `calculate_correlation`'s `except (ValueError,
AssertionError, TypeError, DataError, IndexError)` clause. -/
def ErrKind.handled : ErrKind → Bool
  | .valueError => true
  | .assertionError => true
  | .typeError => true
  | .dataError => true
  | .indexError => true
  | .other => false

/-- The observable outcome of calling a Python function: a return value, or
a raised exception with its kind and message. -/
inductive PyOutcome (α : Type)
  | ok (a : α)
  | error (kind : ErrKind) (msg : String)
  deriving DecidableEq

/-- A warning recorded by `warn_correlation(correlation_name, error)`: the
emitted text names the method and embeds the error message. -/
structure CorrWarning where
  method : String
  error : String
  deriving DecidableEq

/-- `get_active_correlations(config)` of `correlations.py`. -/
def get_active_correlations (config : Settings) : List String :=
  config.correlation_names.filter (fun nm => (config.correlations nm).calculate)

/-- `calculate_correlation(config, df, correlation_name, summary)` of
`correlations.py`.  The per-method `compute` implementations live in the
pandas backend (outside this model), so the call's outcome is a parameter:
a returned `Optional` matrix or a raised exception.  A handled exception
becomes a warning and leaves the result `None`; an unhandled one
propagates (`Except.error`).  A non-`None` result with `len(...) <= 0`
(no rows) is normalised to `None`. -/
def calculate_correlation (correlation_name : String)
    (compute : PyOutcome (Option CorrMatrix)) :
    Except ErrKind (Option CorrMatrix × List CorrWarning) :=
  match compute with
  | .error k msg =>
    if k.handled then .ok (none, [⟨correlation_name, msg⟩]) else .error k
  | .ok none => .ok (none, [])
  | .ok (some m) =>
    .ok ((if m.vals.length ≤ 0 then none else some m), [])

/-- The correlation loop of `describe.py` over a given list of method
names: the dict comprehension `{name: calculate_correlation(...) for name
in correlation_names}`, evaluated left to right, with the first unhandled
exception propagating. -/
def calcAll (names : List String)
    (computes : String → PyOutcome (Option CorrMatrix)) :
    Except ErrKind (List (String × Option CorrMatrix) × List CorrWarning) :=
  match names with
  | [] => .ok ([], [])
  | name :: rest =>
    match calculate_correlation name (computes name) with
    | .error k => .error k
    | .ok (r, w) =>
      match calcAll rest computes with
      | .error k => .error k
      | .ok (ps, ws) => .ok ((name, r) :: ps, w ++ ws)

/-- The correlations stage of `describe(...)` (`describe.py`): when
`table_stats["n"] != 0`, compute every active method and drop the `None`
entries (`{key: value for ... if value is not None}`); when the row count
is zero the stage is skipped and the correlations dict is empty. -/
def describe_correlations (config : Settings) (n : Nat)
    (computes : String → PyOutcome (Option CorrMatrix)) :
    Except ErrKind (List (String × CorrMatrix) × List CorrWarning) :=
  if n ≠ 0 then
    match calcAll (get_active_correlations config) computes with
    | .error k => .error k
    | .ok (raw, ws) =>
      .ok (raw.filterMap (fun p => p.2.map (fun m => (p.1, m))), ws)
  else .ok ([], [])

/-- A warning recorded by `warn_missing(missing_name, error)` inside
`handle_missing` (`missing.py`). -/
structure MissingWarning where
  diagram : String
  error : String
  deriving DecidableEq

/-- One entry of the missing-diagram settings map: its `"name"` and
`"caption"` (the `"function"` entry's behaviour is the `render`
parameter of `get_missing_diagram`). -/
structure DiagramSettings where
  name : String
  caption : String
  deriving DecidableEq

/-- The dict built by `get_missing_diagram` on success. -/
structure MissingDiagramResult where
  name : String
  caption : String
  matrix : String
  deriving DecidableEq

/-- `handle_missing(name, fn)` of `missing.py` applied to a call of `fn`
with the given outcome: a `ValueError` is converted to a warning and the
wrapper falls through returning `None`; any other exception propagates. -/
def handle_missing (name : String) (fnResult : PyOutcome String) :
    Except (ErrKind × String) (Option String × List MissingWarning) :=
  match fnResult with
  | .ok s => .ok (some s, [])
  | .error k msg =>
    if k = .valueError then .ok (none, [⟨name, msg⟩]) else .error (k, msg)

/-- `get_missing_diagram(config, df, settings)` of `missing.py`.  `dfLen`
is `len(df)`; `render` is the outcome the wrapped rendering function
`settings["function"](config, df)` would have (it is only consulted after
the `len(df) == 0` early return, mirroring that the function is not
invoked for an empty frame). -/
def get_missing_diagram (dfLen : Nat) (settings : DiagramSettings)
    (render : PyOutcome String) :
    Except (ErrKind × String) (Option MissingDiagramResult × List MissingWarning) :=
  if dfLen = 0 then .ok (none, [])
  else
    match handle_missing settings.name render with
    | .error e => .error e
    | .ok (none, ws) => .ok (none, ws)
    | .ok (some result, ws) =>
      .ok (some ⟨settings.name, settings.caption, result⟩, ws)

/-- Lexicographic comparison of character lists by code point, the order
Python uses to compare the `str` sort keys. -/
def lexLe : List Char → List Char → Bool
  | [], _ => true
  | _ :: _, [] => false
  | c :: s, d :: t =>
    if c.toNat < d.toNat then true
    else if d.toNat < c.toNat then false
    else lexLe s t

/-- Lexicographic string comparison (structurally recursive, so that it
evaluates inside the kernel, unlike `String.ltb`). -/
def strLe (s t : String) : Bool := lexLe s.data t.data

/-- The sort key of `get_alerts`: `str(alert.alert_type)`. -/
def alertSortKey (a : Alert) : String := a.alert_type.pyStr

/-- The comparison `get_alerts` sorts by: sort key of `a` at most sort key
of `b`. -/
def alertLe (a b : Alert) : Prop :=
  strLe (alertSortKey a) (alertSortKey b) = true

instance : DecidableRel alertLe :=
  fun a b => instDecidableEqBool (strLe (alertSortKey a) (alertSortKey b)) true

/-- `get_alerts(config, table_stats, series_description, correlations)` of
`alerts.py`: table alerts, then per-column alerts in the summaries
mapping's iteration order, then correlation alerts, stably sorted by
`str(alert.alert_type)` (Python's `list.sort` is a stable sort, embedded as
insertion sort, which is stable for a total preorder). -/
def get_alerts (config : Settings) (table_stats : TableStats)
    (series_description : List (String × ColumnSummary))
    (correlations : List (String × CorrMatrix)) : List Alert :=
  List.insertionSort alertLe
    (series_description.foldl
      (fun acc p => acc ++ check_variable_alerts config p.1 p.2)
      (check_table_alerts table_stats)
      ++ check_correlation_alerts config correlations)

/-- Per-column alerts accumulated in the summaries mapping's iteration
order (the `for col, description in series_description.items()` loop of
`get_alerts`, started from an empty accumulator). -/
def columnAlerts (config : Settings)
    (series_description : List (String × ColumnSummary)) : List Alert :=
  series_description.foldl
    (fun acc p => acc ++ check_variable_alerts config p.1 p.2) []

/- Concrete inputs used by the theorems below. -/

/-- A configuration with alerting enabled for every correlation method at
threshold 0.5. -/
def c1cfg : Settings :=
  ⟨20, 1, 1, 50, 1, 1, ["pearson", "spearman"], fun _ => ⟨true, true, mkRat 1 2⟩⟩

/-- A correlation matrix over columns a, b with corr(a, b) = 0.9. -/
def c1pearson : CorrMatrix := ⟨["a", "b"], [[1, mkRat 9 10], [mkRat 9 10, 1]]⟩

/-- A correlation matrix over columns a, c with corr(a, c) = 0.9. -/
def c1spearman : CorrMatrix := ⟨["a", "c"], [[1, mkRat 9 10], [mkRat 9 10, 1]]⟩

/-- A configuration with no active correlation methods. -/
def c4cfg : Settings := ⟨20, 1, 1, 50, 1, 1, [], fun _ => ⟨true, true, 1⟩⟩

/-- Table statistics of an empty dataset: zero rows, zero duplicate rows. -/
def c4ts : TableStats := ⟨0, some 0⟩

/-- The summary of an unsupported column in a zero-row dataset. -/
def c4colU : ColumnSummary :=
  ⟨"Unsupported", 0, none, none, none, none, none, none,
    false, false, false, false, 0, 0, none⟩

/-- A column summary with `p_missing = 0.009`. -/
def c6low : ColumnSummary :=
  ⟨"Numeric", 10, none, some (mkRat 9 1000), none, none, none, none,
    false, false, false, false, 0, 0, none⟩

/-- A column summary with `p_missing = 0.011`. -/
def c6high : ColumnSummary :=
  ⟨"Numeric", 10, none, some (mkRat 11 1000), none, none, none, none,
    false, false, false, false, 0, 0, none⟩

/-- A one-row column: `n = 1` and `n_distinct = 1`, the edge case where
UNIQUE and CONSTANT both apply. -/
def c7edge : ColumnSummary :=
  ⟨"Numeric", 1, some 1, none, none, none, none, none,
    false, false, false, false, 0, 0, none⟩

/-- A configuration whose categorical thresholds are never reached by the
concrete summaries below. -/
def c8cfg : Settings := ⟨20, 1, 1, 50, 1, 1, [], fun _ => ⟨false, false, 1⟩⟩

/-- A categorical summary with coinciding min and max string length but no
`"composition"` key. -/
def c8noComp : ColumnSummary :=
  ⟨"Categorical", 5, some 3, none, none, none, none, none,
    false, false, false, false, 4, 4, none⟩

/-- `c8noComp` with the `"composition"` key present. -/
def c8comp : ColumnSummary := { c8noComp with has_composition := true }

/-- A configuration for the back-fill witness. -/
def c9cfg : Settings := ⟨20, 1, 1, 50, 1, 1, [], fun _ => ⟨false, false, 1⟩⟩

/-- A numeric summary whose only firing rule is MISSING. -/
def c9desc : ColumnSummary :=
  ⟨"Numeric", 10, none, some 1, none, none, none, none,
    false, false, false, false, 0, 0, none⟩

/-- The value `calculate_correlation` ends with when the compute call's
outcome is handled: `None` after a caught exception or a `None`/empty
result, the matrix otherwise. -/
def pureCorrValue (o : PyOutcome (Option CorrMatrix)) : Option CorrMatrix :=
  match o with
  | .error _ _ => none
  | .ok none => none
  | .ok (some m) => if m.vals.length ≤ 0 then none else some m

/-- The warnings `calculate_correlation` records for one compute call. -/
def pureCorrWarn (name : String) (o : PyOutcome (Option CorrMatrix)) :
    List CorrWarning :=
  match o with
  | .error k msg => if k.handled then [⟨name, msg⟩] else []
  | .ok _ => []

/-- Whether a compute outcome is absorbed by `calculate_correlation`
(a return, or an exception of a handled kind). -/
def outcomeHandled (o : PyOutcome (Option CorrMatrix)) : Bool :=
  match o with
  | .error k _ => k.handled
  | .ok _ => true

/-- A 2-by-2 correlation matrix over distinct columns x, y whose
off-diagonal entries reach threshold 1. -/
def c2mat : CorrMatrix := ⟨["x", "y"], [[1, 1], [1, 1]]⟩

/-- A configuration with two active correlation methods. -/
def c5cfg : Settings :=
  ⟨20, 1, 1, 50, 1, 1, ["pearson", "phi_k"], fun _ => ⟨true, true, 1⟩⟩

/-- A non-empty correlation matrix returned by the healthy method. -/
def c5mat : CorrMatrix := ⟨["x", "y"], [[1, 0], [0, 1]]⟩

/-- Compute outcomes where the phi_k method raises a value error and every
other method returns `c5mat`. -/
def c5computes : String → PyOutcome (Option CorrMatrix) :=
  fun nm => if nm == "phi_k" then PyOutcome.error ErrKind.valueError "boom"
    else PyOutcome.ok (some c5mat)

end YProf

namespace YProf

theorem deMinimis_eq : deMinimis = (0.01 : ℚ) := by
  norm_num [deMinimis, mkRat]

/-- C1: the consolidation of `check_correlation_alerts` does NOT take the
union of the partner sets reported by the enabled methods, and the result
depends on the order the methods are processed.  Both methods flag column
a (pearson with partner b, spearman with partner c), yet the emitted
alert for a carries only the partners of the last processed method, and
swapping the two methods changes it: the vestigial source line
`set(fields).update(set(correlated_mapping.get(col, [])))` discards the
set it builds, so `correlations_consolidated[col] = fields` overwrites. -/
theorem C1_consolidation_overwrites :
    perform_check_correlation c1pearson (c1cfg.correlations "pearson").threshold =
      [("a", ["b"]), ("b", ["a"])] ∧
    perform_check_correlation c1spearman (c1cfg.correlations "spearman").threshold =
      [("a", ["c"]), ("c", ["a"])] ∧
    check_correlation_alerts c1cfg [("pearson", c1pearson), ("spearman", c1spearman)] =
      [⟨.HIGH_CORRELATION, .corrFields "overall" ["c"], some "a"⟩,
       ⟨.HIGH_CORRELATION, .corrFields "overall" ["a"], some "b"⟩,
       ⟨.HIGH_CORRELATION, .corrFields "overall" ["a"], some "c"⟩] ∧
    check_correlation_alerts c1cfg [("spearman", c1spearman), ("pearson", c1pearson)] =
      [⟨.HIGH_CORRELATION, .corrFields "overall" ["b"], some "a"⟩,
       ⟨.HIGH_CORRELATION, .corrFields "overall" ["a"], some "c"⟩,
       ⟨.HIGH_CORRELATION, .corrFields "overall" ["a"], some "b"⟩] := by
  decide

/-- C4 counterexample: a profiling run over a zero-row dataset that has a
column still produces per-column alerts (here REJECTED and UNSUPPORTED
with `column_name = "a"`) next to the EMPTY alert, contradicting the
claim that an `n = 0` run has no per-column alerts. -/
theorem C4_counterexample :
    c4ts.n = 0 ∧
    get_alerts c4cfg c4ts [("a", c4colU)] [] =
      [⟨.EMPTY, .table c4ts, none⟩,
       ⟨.REJECTED, .summary c4colU, some "a"⟩,
       ⟨.UNSUPPORTED, .summary c4colU, some "a"⟩] := by
  decide

/-- C4 (amended): for a zero-row dataset the correlations stage of
`describe` is skipped entirely, and when the dataset also has no columns
(and the duplicate count does not alert, as holds for a dataset with no
rows) the alert list is exactly one EMPTY alert and nothing else. -/
theorem C4_empty_dataset (config : Settings) (ts : TableStats)
    (computes : String → PyOutcome (Option CorrMatrix))
    (hn : ts.n = 0) (hdup : alert_value ts.n_duplicates = false) :
    describe_correlations config ts.n computes = Except.ok ([], []) ∧
    get_alerts config ts [] [] = [⟨AlertType.EMPTY, AlertValues.table ts, none⟩] := by
  constructor
  · simp [describe_correlations, hn]
  · simp [get_alerts, check_table_alerts, check_correlation_alerts, hn, hdup,
      List.insertionSort, List.orderedInsert]

theorem C4_witness :
    describe_correlations c4cfg c4ts.n (fun _ => PyOutcome.ok none) = Except.ok ([], []) ∧
    get_alerts c4cfg c4ts [] [] = [⟨AlertType.EMPTY, AlertValues.table c4ts, none⟩] :=
  C4_empty_dataset c4cfg c4ts (fun _ => PyOutcome.ok none) rfl (by decide)

/-- C6: the generic rule emits MISSING exactly when `p_missing` is defined
(not NaN) and exceeds the 0.01 de-minimis cutoff; in particular
`p_missing = 0.009` yields no MISSING alert and `p_missing = 0.011`
yields one. -/
theorem C6_missing_de_minimis :
    (∀ s : ColumnSummary,
      (∃ a ∈ generic_alerts s, a.alert_type = AlertType.MISSING) ↔
        ∃ v : ℚ, s.p_missing = some v ∧ (0.01 : ℚ) < v) ∧
    c6low.p_missing = some (0.009 : ℚ) ∧
    generic_alerts c6low = [] ∧
    c6high.p_missing = some (0.011 : ℚ) ∧
    generic_alerts c6high = [⟨AlertType.MISSING, AlertValues.empty, none⟩] := by
  refine ⟨fun s => ?_, by norm_num [c6low, mkRat], by decide,
    by norm_num [c6high, mkRat], by decide⟩
  cases hp : s.p_missing with
  | none => simp [generic_alerts, alert_value, hp]
  | some v =>
    by_cases hv : deMinimis < v
    · simp [generic_alerts, alert_value, hp, hv, deMinimis_eq.symm]
    · simp [generic_alerts, alert_value, hp, hv, deMinimis_eq.symm]

theorem C6_witness :
    ∃ a ∈ generic_alerts c6high, a.alert_type = AlertType.MISSING :=
  (C6_missing_de_minimis.1 c6high).mpr ⟨mkRat 11 1000, rfl, by norm_num [mkRat]⟩

/-- C7: `supported_alerts` emits UNIQUE exactly when `n_distinct == n`
and CONSTANT exactly when `n_distinct == 1`; a constant column can only
additionally be UNIQUE in the `n = 1` edge case. -/
theorem C7_unique_constant_rules (s : ColumnSummary) :
    ((∃ a ∈ supported_alerts s, a.alert_type = AlertType.UNIQUE) ↔
      s.n_distinct = some s.n) ∧
    ((∃ a ∈ supported_alerts s, a.alert_type = AlertType.CONSTANT) ↔
      s.n_distinct = some 1) ∧
    (s.n_distinct = some 1 →
      (∃ a ∈ supported_alerts s, a.alert_type = AlertType.UNIQUE) → s.n = 1) := by
  simp only [supported_alerts, List.mem_append, List.mem_ite_nil_right,
    List.mem_singleton, beq_iff_eq]
  refine ⟨?_, ?_, ?_⟩
  · constructor
    · rintro ⟨a, (⟨h, rfl⟩ | ⟨h, rfl⟩), ht⟩
      · exact h
      · simp at ht
    · intro h
      exact ⟨⟨AlertType.UNIQUE, AlertValues.empty, none⟩, Or.inl ⟨h, rfl⟩, rfl⟩
  · constructor
    · rintro ⟨a, (⟨h, rfl⟩ | ⟨h, rfl⟩), ht⟩
      · simp at ht
      · exact h
    · intro h
      exact ⟨⟨AlertType.CONSTANT, AlertValues.summary s, none⟩, Or.inr ⟨h, rfl⟩, rfl⟩
  · rintro h1 ⟨a, (⟨h, rfl⟩ | ⟨h, rfl⟩), ht⟩
    · rw [h1] at h
      exact (Option.some.inj h).symm
    · simp at ht

theorem C7_witness :
    (∃ a ∈ supported_alerts c7edge, a.alert_type = AlertType.UNIQUE) ∧
    (∃ a ∈ supported_alerts c7edge, a.alert_type = AlertType.CONSTANT) :=
  ⟨((C7_unique_constant_rules c7edge).1).mpr (by decide),
   ((C7_unique_constant_rules c7edge).2.1).mpr (by decide)⟩

/-- C8 counterexample: a categorical summary whose min and max string
lengths coincide but whose `"composition"` key is absent produces no
alert at all, contradicting the claim that `min_length == max_length`
alone makes the rule emit CONSTANT_LENGTH. -/
theorem C8_counterexample :
    c8noComp.vtype = "Categorical" ∧
    c8noComp.min_length = c8noComp.max_length ∧
    categorical_alerts c8cfg c8noComp = [] := by
  decide

/-- C8 (amended): when the summary carries composition statistics (the
`"composition"` key is present) and the min and max string lengths
coincide, the categorical rules emit a CONSTANT_LENGTH alert. -/
theorem C8_constant_length (config : Settings) (summary : ColumnSummary)
    (hcomp : summary.has_composition = true)
    (hlen : summary.min_length = summary.max_length) :
    ∃ a ∈ categorical_alerts config summary,
      a.alert_type = AlertType.CONSTANT_LENGTH := by
  refine ⟨⟨AlertType.CONSTANT_LENGTH, AlertValues.empty, none⟩, ?_, rfl⟩
  unfold categorical_alerts
  simp [hcomp, hlen]

theorem C8_witness :
    ∃ a ∈ categorical_alerts c8cfg c8comp,
      a.alert_type = AlertType.CONSTANT_LENGTH :=
  C8_constant_length c8cfg c8comp rfl rfl

/-- C9: after `check_variable_alerts`, every produced alert has its
`column_name` back-filled to the checked column and its `values`
back-filled to the full column summary, whatever the rule constructed. -/
theorem C9_backfill (config : Settings) (col : String)
    (description : ColumnSummary) :
    ∀ a ∈ check_variable_alerts config col description,
      a.column_name = some col ∧ a.values = AlertValues.summary description := by
  intro a ha
  simp only [check_variable_alerts, List.mem_map] at ha
  obtain ⟨b, hb, rfl⟩ := ha
  exact ⟨rfl, rfl⟩

theorem C9_witness :
    (⟨AlertType.MISSING, AlertValues.summary c9desc, some "x"⟩ : Alert) ∈
        check_variable_alerts c9cfg "x" c9desc ∧
      ((⟨AlertType.MISSING, AlertValues.summary c9desc, some "x"⟩ : Alert).column_name
          = some "x" ∧
        (⟨AlertType.MISSING, AlertValues.summary c9desc, some "x"⟩ : Alert).values
          = AlertValues.summary c9desc) :=
  ⟨by decide, C9_backfill c9cfg "x" c9desc _ (by decide)⟩

/-- C10: `get_missing_diagram` yields no diagram for an empty dataset,
whatever the rendering function would do (it is never invoked), and a
rendering value error is converted to a warning naming the diagram with
the diagram omitted. -/
theorem C10_missing_diagram (settings : DiagramSettings) :
    (∀ render : PyOutcome String,
      get_missing_diagram 0 settings render = Except.ok (none, [])) ∧
    (∀ (dfLen : Nat) (msg : String), dfLen ≠ 0 →
      get_missing_diagram dfLen settings (PyOutcome.error ErrKind.valueError msg) =
        Except.ok (none, [⟨settings.name, msg⟩])) := by
  constructor
  · intro render; rfl
  · intro dfLen msg h
    simp [get_missing_diagram, handle_missing, h]

theorem C10_witness :
    get_missing_diagram 0 ⟨"bar", "cap"⟩ (PyOutcome.error ErrKind.typeError "boom") =
      Except.ok (none, []) ∧
    get_missing_diagram 3 ⟨"bar", "cap"⟩ (PyOutcome.error ErrKind.valueError "bad value") =
      Except.ok (none, [⟨"bar", "bad value"⟩]) :=
  ⟨(C10_missing_diagram ⟨"bar", "cap"⟩).1 _,
   (C10_missing_diagram ⟨"bar", "cap"⟩).2 3 "bad value" (by decide)⟩

theorem boolIndex_eq_true {m : CorrMatrix} {t : ℚ} {i j : Nat} :
    boolIndex m t i j = true ↔ i ≠ j ∧ t ≤ |matEntry m i j| := by
  unfold boolIndex
  by_cases h : i = j <;> simp [h]

theorem mem_rowPartners {m : CorrMatrix} {t : ℚ} {i : Nat} {q : String} :
    q ∈ rowPartners m t i ↔
      ∃ j, j < m.cols.length ∧ boolIndex m t i j = true ∧ m.cols.getD j "" = q := by
  unfold rowPartners
  simp only [List.mem_map, List.mem_filter, List.mem_range]
  constructor
  · rintro ⟨j, ⟨hj, hb⟩, rfl⟩
    exact ⟨j, hj, hb, rfl⟩
  · rintro ⟨j, hj, hb, rfl⟩
    exact ⟨j, ⟨hj, hb⟩, rfl⟩

theorem mem_perform_check {m : CorrMatrix} {t : ℚ} {p : String × List String} :
    p ∈ perform_check_correlation m t ↔
      ∃ i, i < m.cols.length ∧ (∃ j, j < m.cols.length ∧ boolIndex m t i j = true) ∧
        p = (m.cols.getD i "", rowPartners m t i) := by
  unfold perform_check_correlation
  simp only [List.mem_filterMap, List.mem_range]
  constructor
  · rintro ⟨i, hi, hif⟩
    by_cases h : ((List.range m.cols.length).any (fun j => boolIndex m t i j)) = true
    · rw [if_pos h] at hif
      refine ⟨i, hi, ?_, (Option.some.inj hif).symm⟩
      simpa [List.any_eq_true, List.mem_range] using h
    · rw [if_neg h] at hif
      cases hif
  · rintro ⟨i, hi, hj, rfl⟩
    refine ⟨i, hi, ?_⟩
    rw [if_pos]
    simpa [List.any_eq_true, List.mem_range] using hj

/-- C2: on a square correlation matrix over distinct columns,
`perform_check_correlation` never lists a column as its own partner, every
reported partner pair corresponds to an off-diagonal entry whose absolute
value reaches the threshold, partner lists of reported columns are
non-empty, every column with a qualifying partner is reported, and the
result is empty when no off-diagonal entry reaches the threshold. -/
theorem C2_threshold_checker (m : CorrMatrix) (t : ℚ)
    (_hsq : m.vals.length = m.cols.length ∧
      ∀ row ∈ m.vals, row.length = m.cols.length)
    (hnd : m.cols.Nodup) :
    (∀ p ∈ perform_check_correlation m t, p.1 ∉ p.2) ∧
    (∀ p ∈ perform_check_correlation m t, ∀ q ∈ p.2, ∃ i j : Nat,
      i < m.cols.length ∧ j < m.cols.length ∧ i ≠ j ∧
      m.cols.getD i "" = p.1 ∧ m.cols.getD j "" = q ∧ t ≤ |matEntry m i j|) ∧
    (∀ p ∈ perform_check_correlation m t, p.2 ≠ []) ∧
    (∀ i : Nat, i < m.cols.length →
      (∃ j : Nat, j < m.cols.length ∧ j ≠ i ∧ t ≤ |matEntry m i j|) →
      m.cols.getD i "" ∈ (perform_check_correlation m t).map Prod.fst) ∧
    ((∀ i j : Nat, i < m.cols.length → j < m.cols.length → i ≠ j →
        |matEntry m i j| < t) →
      perform_check_correlation m t = []) := by
  refine ⟨?_, ?_, ?_, ?_, ?_⟩
  · rintro p hp hmem
    obtain ⟨i, hi, _, rfl⟩ := mem_perform_check.mp hp
    obtain ⟨j, hj, hb, hq⟩ := mem_rowPartners.mp hmem
    obtain ⟨hne, _⟩ := boolIndex_eq_true.mp hb
    rw [List.getD_eq_getElem _ _ hj, List.getD_eq_getElem _ _ hi] at hq
    exact hne ((hnd.getElem_inj_iff).mp hq.symm)
  · rintro p hp q hq
    obtain ⟨i, hi, _, rfl⟩ := mem_perform_check.mp hp
    obtain ⟨j, hj, hb, hqq⟩ := mem_rowPartners.mp hq
    obtain ⟨hne, hth⟩ := boolIndex_eq_true.mp hb
    exact ⟨i, j, hi, hj, hne, rfl, hqq, hth⟩
  · rintro p hp
    obtain ⟨i, hi, ⟨j, hj, hb⟩, rfl⟩ := mem_perform_check.mp hp
    have : m.cols.getD j "" ∈ rowPartners m t i :=
      mem_rowPartners.mpr ⟨j, hj, hb, rfl⟩
    exact List.ne_nil_of_mem this
  · rintro i hi ⟨j, hj, hne, hth⟩
    have hb : boolIndex m t i j = true :=
      boolIndex_eq_true.mpr ⟨fun h => hne h.symm, hth⟩
    have : (m.cols.getD i "", rowPartners m t i) ∈ perform_check_correlation m t :=
      mem_perform_check.mpr ⟨i, hi, ⟨j, hj, hb⟩, rfl⟩
    exact List.mem_map_of_mem Prod.fst this
  · intro hsmall
    unfold perform_check_correlation
    rw [List.filterMap_eq_nil_iff]
    intro i hi
    rw [List.mem_range] at hi
    rw [if_neg]
    intro hany
    rw [List.any_eq_true] at hany
    obtain ⟨j, hjr, hb⟩ := hany
    rw [List.mem_range] at hjr
    obtain ⟨hne, hth⟩ := boolIndex_eq_true.mp hb
    exact absurd hth (not_le.mpr (hsmall i j hi hjr hne))

theorem C2_witness :
    (("x", ["y"]) : String × List String) ∈ perform_check_correlation c2mat 1 ∧
    (("x", ["y"]) : String × List String).1 ∉ (("x", ["y"]) : String × List String).2 ∧
    c2mat.cols.getD 0 "" ∈ (perform_check_correlation c2mat 1).map Prod.fst :=
  have h := C2_threshold_checker c2mat 1 ⟨by decide, by decide⟩ (by decide)
  ⟨by decide, h.1 ("x", ["y"]) (by decide),
   h.2.2.2.1 0 (by decide) ⟨1, by decide, by decide, by decide⟩⟩

theorem calculate_correlation_eq (name : String)
    (o : PyOutcome (Option CorrMatrix)) (h : outcomeHandled o = true) :
    calculate_correlation name o =
      Except.ok (pureCorrValue o, pureCorrWarn name o) := by
  cases o with
  | ok v => cases v <;> rfl
  | error k msg =>
    have hk : k.handled = true := h
    simp [calculate_correlation, pureCorrValue, pureCorrWarn, hk]

theorem calcAll_ok_handled (computes : String → PyOutcome (Option CorrMatrix)) :
    ∀ (names : List String)
      (res : List (String × Option CorrMatrix) × List CorrWarning),
      calcAll names computes = Except.ok res →
      ∀ nm ∈ names, outcomeHandled (computes nm) = true := by
  intro names
  induction names with
  | nil => intro res _ nm hm; cases hm
  | cons a rest ih =>
    intro res h nm hm
    rcases List.mem_cons.mp hm with rfl | hm'
    · cases ho : computes nm with
      | ok v => simp [outcomeHandled]
      | error k msg =>
        by_cases hk : k.handled = true
        · simp [outcomeHandled, ho, hk]
        · exfalso
          have hcc : calculate_correlation nm (computes nm) = Except.error k := by
            simp [calculate_correlation, ho, hk]
          rw [calcAll, hcc] at h
          exact Except.noConfusion h
    · cases hc : calculate_correlation a (computes a) with
      | error k =>
        rw [calcAll, hc] at h
        exact Except.noConfusion h
      | ok pw =>
        cases hr : calcAll rest computes with
        | error k =>
          rw [calcAll, hc, hr] at h
          exact Except.noConfusion h
        | ok pr => exact ih pr hr nm hm'

theorem calcAll_eq_of_handled (computes : String → PyOutcome (Option CorrMatrix)) :
    ∀ names : List String, (∀ nm ∈ names, outcomeHandled (computes nm) = true) →
      calcAll names computes = Except.ok
        (names.map (fun nm => (nm, pureCorrValue (computes nm))),
          names.flatMap (fun nm => pureCorrWarn nm (computes nm))) := by
  intro names
  induction names with
  | nil => intro _; rfl
  | cons a rest ih =>
    intro h
    have ha := h a (List.mem_cons_self a rest)
    rw [calcAll, calculate_correlation_eq a (computes a) ha,
      ih (fun nm hm => h nm (List.mem_cons_of_mem a hm))]
    rfl

/-- C5: when an active method's compute call raises a handled error kind
the orchestrator records a warning naming the method and its message and
omits the method from the final correlations mapping, every other active
method whose compute call returns a non-empty matrix is present, and an
active method whose compute call returns an empty matrix is omitted. -/
theorem C5_correlation_failure (config : Settings) (n : Nat)
    (computes : String → PyOutcome (Option CorrMatrix))
    (me : String) (kind : ErrKind) (msg : String)
    (res : List (String × CorrMatrix)) (ws : List CorrWarning)
    (hn : n ≠ 0)
    (hact : me ∈ get_active_correlations config)
    (hcomp : computes me = PyOutcome.error kind msg)
    (hk : kind.handled = true)
    (hres : describe_correlations config n computes = Except.ok (res, ws)) :
    (∀ mtx : CorrMatrix, (me, mtx) ∉ res) ∧
    (⟨me, msg⟩ : CorrWarning) ∈ ws ∧
    (∀ (other : String) (mtx : CorrMatrix),
      other ∈ get_active_correlations config →
      computes other = PyOutcome.ok (some mtx) → mtx.vals.length ≠ 0 →
      (other, mtx) ∈ res) ∧
    (∀ (other : String) (mtx : CorrMatrix),
      other ∈ get_active_correlations config →
      computes other = PyOutcome.ok (some mtx) → mtx.vals.length = 0 →
      ∀ mtx2 : CorrMatrix, (other, mtx2) ∉ res) := by
  rw [describe_correlations, if_pos hn] at hres
  cases hall : calcAll (get_active_correlations config) computes with
  | error k =>
    rw [hall] at hres
    exact Except.noConfusion hres
  | ok pr =>
    obtain ⟨praw, pws⟩ := pr
    have hhand := calcAll_ok_handled computes (get_active_correlations config)
      (praw, pws) hall
    have hpr := Except.ok.inj (hall.symm.trans
      (calcAll_eq_of_handled computes _ hhand))
    rw [Prod.mk.injEq] at hpr
    obtain ⟨hpraw, hpws⟩ := hpr
    subst hpraw
    subst hpws
    rw [hall] at hres
    have hpair := Except.ok.inj hres
    rw [Prod.mk.injEq] at hpair
    obtain ⟨hresq, hwsq⟩ := hpair
    subst hresq
    subst hwsq
    refine ⟨?_, ?_, ?_, ?_⟩
    · intro mtx hmem
      rw [List.filterMap_map] at hmem
      rw [List.mem_filterMap] at hmem
      obtain ⟨nm, hnm, hsome⟩ := hmem
      simp only [Function.comp] at hsome
      rw [Option.map_eq_some'] at hsome
      obtain ⟨mm, hval, heq⟩ := hsome
      rw [Prod.mk.injEq] at heq
      obtain ⟨rfl, rfl⟩ := heq
      rw [hcomp] at hval
      simp [pureCorrValue] at hval
    · rw [List.mem_flatMap]
      refine ⟨me, hact, ?_⟩
      rw [hcomp]
      simp [pureCorrWarn, hk]
    · intro other mtx hoact hocomp holen
      rw [List.filterMap_map, List.mem_filterMap]
      refine ⟨other, hoact, ?_⟩
      simp only [Function.comp]
      rw [hocomp]
      simp [pureCorrValue, Nat.le_zero, holen]
    · intro other mtx hoact hocomp holen mtx2 hmem
      rw [List.filterMap_map, List.mem_filterMap] at hmem
      obtain ⟨nm, hnm, hsome⟩ := hmem
      simp only [Function.comp] at hsome
      rw [Option.map_eq_some'] at hsome
      obtain ⟨mm, hval, heq⟩ := hsome
      rw [Prod.mk.injEq] at heq
      obtain ⟨rfl, rfl⟩ := heq
      rw [hocomp] at hval
      simp [pureCorrValue, Nat.le_zero, holen] at hval

theorem C5_witness :
    ("phi_k", c5mat) ∉ ([("pearson", c5mat)] : List (String × CorrMatrix)) ∧
    (⟨"phi_k", "boom"⟩ : CorrWarning) ∈ ([⟨"phi_k", "boom"⟩] : List CorrWarning) ∧
    ("pearson", c5mat) ∈ ([("pearson", c5mat)] : List (String × CorrMatrix)) :=
  have h := C5_correlation_failure c5cfg 1 c5computes "phi_k" ErrKind.valueError
    "boom" [("pearson", c5mat)] [⟨"phi_k", "boom"⟩]
    (by decide) (by decide) rfl rfl rfl
  ⟨h.1 c5mat, h.2.1, h.2.2.1 "pearson" c5mat (by decide) rfl (by decide)⟩

theorem lexLe_refl : ∀ s : List Char, lexLe s s = true := by
  intro s
  induction s with
  | nil => rfl
  | cons c s ih => simp [lexLe, Nat.lt_irrefl, ih]

theorem lexLe_total : ∀ s t : List Char, lexLe s t = true ∨ lexLe t s = true := by
  intro s
  induction s with
  | nil => intro t; exact Or.inl rfl
  | cons c s ih =>
    intro t
    cases t with
    | nil => exact Or.inr rfl
    | cons d t' =>
      rcases Nat.lt_trichotomy c.toNat d.toNat with h | h | h
      · left
        simp [lexLe, h]
      · have h1 : ¬ c.toNat < d.toNat := by omega
        have h2 : ¬ d.toNat < c.toNat := by omega
        rcases ih t' with ht | ht
        · left
          simp [lexLe, h1, h2, ht]
        · right
          simp [lexLe, h1, h2, ht]
      · right
        simp [lexLe, h]

theorem lexLe_trans : ∀ s t u : List Char,
    lexLe s t = true → lexLe t u = true → lexLe s u = true := by
  intro s
  induction s with
  | nil => intro t u _ _; rfl
  | cons c s ih =>
    intro t u hst htu
    cases t with
    | nil => simp [lexLe] at hst
    | cons d t' =>
      cases u with
      | nil => simp [lexLe] at htu
      | cons e u' =>
        by_cases hcd : c.toNat < d.toNat
        · by_cases hde : d.toNat < e.toNat
          · have h : c.toNat < e.toNat := Nat.lt_trans hcd hde
            simp [lexLe, h]
          · by_cases hed : e.toNat < d.toNat
            · simp [lexLe, hde, hed] at htu
            · have h : c.toNat < e.toNat := by omega
              simp [lexLe, h]
        · by_cases hdc : d.toNat < c.toNat
          · simp [lexLe, hcd, hdc] at hst
          · by_cases hde : d.toNat < e.toNat
            · have h : c.toNat < e.toNat := by omega
              simp [lexLe, h]
            · by_cases hed : e.toNat < d.toNat
              · simp [lexLe, hde, hed] at htu
              · have h1 : ¬ c.toNat < e.toNat := by omega
                have h2 : ¬ e.toNat < c.toNat := by omega
                simp only [lexLe, if_neg hcd, if_neg hdc] at hst
                simp only [lexLe, if_neg hde, if_neg hed] at htu
                simp only [lexLe, if_neg h1, if_neg h2]
                exact ih t' u' hst htu

theorem lexLe_append_left : ∀ (p s t : List Char),
    lexLe (p ++ s) (p ++ t) = lexLe s t := by
  intro p
  induction p with
  | nil => intro s t; rfl
  | cons c p ih => intro s t; simp [lexLe, Nat.lt_irrefl, ih]

theorem strLe_pyStr (x y : AlertType) :
    strLe x.pyStr y.pyStr = strLe x.name y.name := by
  unfold strLe AlertType.pyStr
  rw [String.data_append, String.data_append, lexLe_append_left]

theorem alertLe_total (a b : Alert) : alertLe a b ∨ alertLe b a := lexLe_total _ _

theorem alertLe_trans {a b c : Alert} (h1 : alertLe a b) (h2 : alertLe b c) :
    alertLe a c := lexLe_trans _ _ _ h1 h2

theorem not_alertLe_ne_type {a b : Alert} (h : ¬ alertLe a b) :
    a.alert_type ≠ b.alert_type := by
  intro he
  exact h (by unfold alertLe alertSortKey; rw [he]; exact lexLe_refl _)

theorem filter_orderedInsert (t : AlertType) (a : Alert) (l : List Alert) :
    (List.orderedInsert alertLe a l).filter (fun x => x.alert_type == t) =
      ((a :: l).filter (fun x => x.alert_type == t)) := by
  induction l with
  | nil => rfl
  | cons b l ih =>
    by_cases h : alertLe a b
    · rw [List.orderedInsert, if_pos h]
    · rw [List.orderedInsert, if_neg h]
      have hne := not_alertLe_ne_type h
      by_cases hb : (b.alert_type == t) = true
      · have ha : (a.alert_type == t) = false := by
          cases hcase : (a.alert_type == t) with
          | false => rfl
          | true =>
            exact absurd ((beq_iff_eq.mp hcase).trans (beq_iff_eq.mp hb).symm) hne
        simp [List.filter_cons, hb, ha, ih]
      · have hb' : (b.alert_type == t) = false := Bool.not_eq_true _ |>.mp hb
        by_cases ha : (a.alert_type == t) = true
        · simp [List.filter_cons, hb', ha, ih]
        · have ha' : (a.alert_type == t) = false := Bool.not_eq_true _ |>.mp ha
          simp [List.filter_cons, hb', ha', ih]

theorem filter_insertionSort (t : AlertType) :
    ∀ l : List Alert,
      (List.insertionSort alertLe l).filter (fun x => x.alert_type == t) =
        l.filter (fun x => x.alert_type == t) := by
  intro l
  induction l with
  | nil => rfl
  | cons a l ih =>
    rw [List.insertionSort, filter_orderedInsert]
    simp [List.filter_cons, ih]

theorem foldl_append_init (f : String × ColumnSummary → List Alert) :
    ∀ (l : List (String × ColumnSummary)) (init : List Alert),
      l.foldl (fun acc p => acc ++ f p) init =
        init ++ l.foldl (fun acc p => acc ++ f p) [] := by
  intro l
  induction l with
  | nil => intro init; simp
  | cons x xs ih =>
    intro init
    rw [List.foldl_cons, List.foldl_cons, ih (init ++ f x), ih ([] ++ f x)]
    simp

theorem get_alerts_eq (config : Settings) (table_stats : TableStats)
    (series_description : List (String × ColumnSummary))
    (correlations : List (String × CorrMatrix)) :
    get_alerts config table_stats series_description correlations =
      List.insertionSort alertLe
        (check_table_alerts table_stats ++ columnAlerts config series_description
          ++ check_correlation_alerts config correlations) := by
  unfold get_alerts columnAlerts
  rw [foldl_append_init]

/-- C3: `get_alerts` returns the concatenation of table-scope, per-column
and correlation alerts, stably sorted by the alert type's symbolic enum
name compared lexicographically: repeated calls agree (definitional in
this pure model), the output is pairwise ordered by name, the alerts of
each type appear exactly as in the unsorted concatenation (stability),
and the output is a permutation of that concatenation. -/
theorem C3_alert_ordering (config : Settings) (table_stats : TableStats)
    (series_description : List (String × ColumnSummary))
    (correlations : List (String × CorrMatrix)) :
    get_alerts config table_stats series_description correlations =
      get_alerts config table_stats series_description correlations ∧
    List.Sorted (fun a b : Alert => strLe a.alert_type.name b.alert_type.name = true)
      (get_alerts config table_stats series_description correlations) ∧
    (∀ t : AlertType,
      (get_alerts config table_stats series_description correlations).filter
          (fun x => x.alert_type == t) =
        (check_table_alerts table_stats ++ columnAlerts config series_description
          ++ check_correlation_alerts config correlations).filter
          (fun x => x.alert_type == t)) ∧
    (get_alerts config table_stats series_description correlations).Perm
      (check_table_alerts table_stats ++ columnAlerts config series_description
        ++ check_correlation_alerts config correlations) := by
  refine ⟨rfl, ?_, ?_, ?_⟩
  · rw [get_alerts_eq]
    have tot : IsTotal Alert alertLe := ⟨alertLe_total⟩
    have trn : IsTrans Alert alertLe := ⟨fun a b c => alertLe_trans⟩
    have hs := @List.sorted_insertionSort Alert alertLe _ tot trn
      (check_table_alerts table_stats ++ columnAlerts config series_description
        ++ check_correlation_alerts config correlations)
    refine List.Pairwise.imp ?_ hs
    intro a b hab
    unfold alertLe alertSortKey at hab
    rw [strLe_pyStr] at hab
    exact hab
  · intro t
    rw [get_alerts_eq, filter_insertionSort]
  · rw [get_alerts_eq]
    exact List.perm_insertionSort alertLe _

end YProf
